import Mathlib

/-!
Verification of the multi-agent task orchestrator in
`src/agents/core/ai-agent-swarm.js` (class `AIAgentSwarm`).

The JavaScript source is shallowly embedded as follows:

* `Agent`, `AgentEfficiency`, `SwarmTask`, `TaskResult`, `CoordinatedResult`
  mirror the plain objects the class manipulates.
* The external inference backend (`this.wrapper.chat`) is modelled by an
  oracle value: `ChatBehavior` for per-task calls (carrying whether the
  returned promise resolves or rejects, the response fields, and how many
  milliseconds the call takes), and `SynthOutcome` for the single
  coordination call.
* `executeAgentTask` (source lines 250-312) becomes a pure function from
  the pre-state of the agent and its efficiency slot to the produced
  `TaskResult` and post-state.  The `Promise.race` against
  `setTimeout(..., taskTimeout)` is resolved by comparing the chat
  duration with the timeout.
* `executeSwarmTasks` (source lines 206-245) is embedded as a small-step
  transition system `ExecStep` over `ExecState`: one step either records
  that an in-flight promise settled, or performs one iteration of the
  admission loop.  The loop's array surgery is translated literally: the
  resolved value of `Promise.race(activeTasks)` is a task-result object
  whose only identifier field is `taskId`, so `completedTask.id` is
  `undefined`, `findIndex(t => t.id === completedTask.id)` returns `-1`,
  and `splice(-1, 1)` removes the *last* element of the array — hence
  `List.dropLast` in `ExecStep.admitFull`.
* `coordinateResults` (source lines 424-487) becomes a pure function of
  the collected results and the synthesis oracle, returning the
  coordinated result together with a flag recording whether the
  synthesis call was issued at all.
-/

/-- One specialised agent record, as stored in `this.agents`
(source lines 78-87): the static definition fields plus the mutable
status/metrics fields initialised by `initializeAgents`. -/
structure Agent where
  id : String
  name : String
  model : String
  specialization : String
  capabilities : List String
  prompt : String
  status : String
  tasksCompleted : Nat
  averageResponseTime : Nat
  successRate : Nat
  lastActive : Option Nat
deriving DecidableEq, Repr

/-- One entry of `this.swarmMetrics.agentEfficiency` (source lines 89-94). -/
structure AgentEfficiency where
  tasksAssigned : Nat
  tasksCompleted : Nat
  averageTime : Nat
  successRate : Nat
deriving DecidableEq, Repr

/-- A task object as produced by `createSwarmTasks` (source lines 125-201).
The repository work item is opaque to the orchestrator and is kept as a
string reference. -/
structure SwarmTask where
  id : String
  agentId : String
  type : String
  repository : String
  priority : String
  description : String
deriving DecidableEq, Repr

/-- The per-task result object returned by `executeAgentTask`
(source lines 286-296 and 302-310).  `result`/`reasoning` are present
iff the chat response reported success; `error` is present iff it did
not, or the call threw/timed out.  `timestamp` models `new Date()` taken
at task termination, as milliseconds. -/
structure TaskResult where
  taskId : String
  agentId : String
  type : String
  success : Bool
  result : Option String
  reasoning : Option String
  error : Option String
  executionTime : Nat
  timestamp : Nat
deriving DecidableEq, Repr

/-- Behaviour of one `this.wrapper.chat(...)` promise raced against the
task timeout: either it resolves after `duration` ms with a
`{success, data, error}` object (content/reasoning are the message
fields read under success, errMsg the `error` field read otherwise), or
it rejects after `duration` ms with an error message. -/
inductive ChatBehavior where
  | resolves (success : Bool) (content : String) (reasoning : String)
      (errMsg : String) (duration : Nat)
  | rejects (msg : String) (duration : Nat)
deriving DecidableEq, Repr

/-- Milliseconds until the chat promise settles. -/
def chatDuration : ChatBehavior → Nat
  | .resolves _ _ _ _ d => d
  | .rejects _ d => d

/-- `Math.round((a + b) / 2)` for natural inputs: JavaScript rounds the
half case up, which on naturals is `(a + b + 1) / 2` with floor
division. -/
def jsRoundDiv2 (s : Nat) : Nat := (s + 1) / 2

/-- The task-result object built in the `catch` block of
`executeAgentTask` (source lines 302-310): `success: false`, the caught
error's message, and the elapsed wall-clock time. -/
def catchTaskResult (task : SwarmTask) (msg : String) (execTime startTime : Nat) :
    TaskResult :=
  { taskId := task.id
    agentId := task.agentId
    type := task.type
    success := false
    result := none
    reasoning := none
    error := some msg
    executionTime := execTime
    timestamp := startTime + execTime }

/-- `executeAgentTask` (source lines 250-312), for a task whose
`agentId` is registered.  The function races the chat call against a
timer of `T = config.taskTimeout` ms: the chat wins iff its duration is
strictly below `T`; otherwise the timer rejects first with
`Error('Task timeout')`.  A resolved chat (successful or not) takes the
`try` path: `tasksCompleted` is incremented and the response-time
averages are re-blended.  A rejection or timeout takes the `catch`
path: the agent's counters are untouched and only
`agentEfficiency[agentId].tasksAssigned` is incremented (source line
300). Returns the produced `TaskResult` with the post-states of the
agent record and its efficiency slot. -/
def executeAgentTask (T : Nat) (agent : Agent) (eff : AgentEfficiency)
    (task : SwarmTask) (startTime : Nat) (chat : ChatBehavior) :
    TaskResult × Agent × AgentEfficiency :=
  match chat with
  | .resolves ok content reasoning errMsg d =>
    if d < T then
      ({ taskId := task.id
         agentId := task.agentId
         type := task.type
         success := ok
         result := if ok then some content else none
         reasoning := if ok then some reasoning else none
         error := if ok then none else some errMsg
         executionTime := d
         timestamp := startTime + d },
       { agent with
           tasksCompleted := agent.tasksCompleted + 1
           averageResponseTime := jsRoundDiv2 (agent.averageResponseTime + d)
           status := "idle"
           lastActive := some startTime },
       { eff with
           tasksCompleted := eff.tasksCompleted + 1
           averageTime := jsRoundDiv2 (eff.averageTime + d) })
    else
      (catchTaskResult task "Task timeout" T startTime,
       { agent with status := "idle", lastActive := some startTime },
       { eff with tasksAssigned := eff.tasksAssigned + 1 })
  | .rejects msg d =>
    if d < T then
      (catchTaskResult task msg d startTime,
       { agent with status := "idle", lastActive := some startTime },
       { eff with tasksAssigned := eff.tasksAssigned + 1 })
    else
      (catchTaskResult task "Task timeout" T startTime,
       { agent with status := "idle", lastActive := some startTime },
       { eff with tasksAssigned := eff.tasksAssigned + 1 })

/-- The agent table built by `initializeAgents` (source lines 31-98):
each entry starts idle with `tasksCompleted = 0`,
`averageResponseTime = 0`, `successRate = 100`, `lastActive = null`. -/
def mkInitialAgent (id name model specialization : String)
    (capabilities : List String) (prompt : String) : Agent :=
  { id := id
    name := name
    model := model
    specialization := specialization
    capabilities := capabilities
    prompt := prompt
    status := "idle"
    tasksCompleted := 0
    averageResponseTime := 0
    successRate := 100
    lastActive := none }

def architectAgent : Agent :=
  mkInitialAgent "architect" "Architecture Analyst" "x-ai/grok-code-fast-1"
    "system-architecture"
    ["architecture-analysis", "design-patterns", "scalability-assessment"]
    "You are an expert software architect specializing in system design analysis."

def securityAgent : Agent :=
  mkInitialAgent "security" "Security Auditor" "deepseek/deepseek-chat-v3.1:free"
    "security-analysis"
    ["vulnerability-detection", "security-patterns", "compliance-check"]
    "You are a cybersecurity expert specializing in code security analysis."

def performanceAgent : Agent :=
  mkInitialAgent "performance" "Performance Optimizer"
    "qwen/qwen3-30b-a3b-thinking-2507" "performance-analysis"
    ["performance-optimization", "bottleneck-detection", "scalability"]
    "You are a performance optimization expert focusing on code efficiency."

def qualityAgent : Agent :=
  mkInitialAgent "quality" "Code Quality Assessor" "openai/gpt-oss-120b:free"
    "code-quality"
    ["code-review", "best-practices", "maintainability"]
    "You are a code quality expert focusing on maintainability and best practices."

def testingAgent : Agent :=
  mkInitialAgent "testing" "Test Engineer" "x-ai/grok-code-fast-1"
    "test-generation"
    ["test-design", "coverage-analysis", "test-strategy"]
    "You are a test automation expert specializing in comprehensive test strategies."

def documentationAgent : Agent :=
  mkInitialAgent "documentation" "Documentation Specialist"
    "google/gemini-2.5-flash-image-preview:free" "documentation"
    ["technical-writing", "api-documentation", "user-guides"]
    "You are a technical writing expert creating clear, comprehensive documentation."

/-- The `this.agents` map after construction, as an association list in
insertion order (source lines 33-95). -/
def initializeAgents : List (String × Agent) :=
  [("architect", architectAgent), ("security", securityAgent),
   ("performance", performanceAgent), ("quality", qualityAgent),
   ("testing", testingAgent), ("documentation", documentationAgent)]

/-- Initial `agentEfficiency` slot (source lines 89-94). -/
def initialEfficiency : AgentEfficiency :=
  { tasksAssigned := 0, tasksCompleted := 0, averageTime := 0, successRate := 100 }

/-- `createSwarmTasks` (source lines 125-201): one task per requested
analysis type that has a dedicated branch, in source order.  `now`
stands for `Date.now()` used to build the task ids; `repository` is the
opaque work-item reference. -/
def createSwarmTasks (now : Nat) (repository : String)
    (analysisTypes : List String) : List SwarmTask :=
  (if analysisTypes.contains "comprehensive" || analysisTypes.contains "architecture" then
    [{ id := "arch-" ++ toString now, agentId := "architect",
       type := "architecture-analysis", repository := repository,
       priority := "high",
       description := "Analyze system architecture and design patterns" }]
   else []) ++
  (if analysisTypes.contains "comprehensive" || analysisTypes.contains "security" then
    [{ id := "sec-" ++ toString now, agentId := "security",
       type := "security-analysis", repository := repository,
       priority := "high",
       description := "Comprehensive security vulnerability assessment" }]
   else []) ++
  (if analysisTypes.contains "comprehensive" || analysisTypes.contains "performance" then
    [{ id := "perf-" ++ toString now, agentId := "performance",
       type := "performance-analysis", repository := repository,
       priority := "medium",
       description := "Performance bottleneck identification and optimization" }]
   else []) ++
  (if analysisTypes.contains "comprehensive" || analysisTypes.contains "quality" then
    [{ id := "qual-" ++ toString now, agentId := "quality",
       type := "quality-analysis", repository := repository,
       priority := "medium",
       description := "Code quality assessment and best practices review" }]
   else []) ++
  (if analysisTypes.contains "comprehensive" || analysisTypes.contains "testing" then
    [{ id := "test-" ++ toString now, agentId := "testing",
       type := "testing-analysis", repository := repository,
       priority := "low",
       description := "Test coverage analysis and strategy recommendations" }]
   else []) ++
  (if analysisTypes.contains "comprehensive" || analysisTypes.contains "documentation" then
    [{ id := "doc-" ++ toString now, agentId := "documentation",
       type := "documentation-analysis", repository := repository,
       priority := "low",
       description := "Documentation completeness and improvement suggestions" }]
   else [])

/-- The numeric priority table of the sort comparator in
`executeSwarmTasks` (source lines 213-216): high 3, medium 2, low 1. -/
def priorityNum : String → Nat
  | "high" => 3
  | "medium" => 2
  | "low" => 1
  | _ => 0

/-- Stable insertion of a task into a list already sorted by descending
priority: the new task goes after every earlier task of strictly higher
priority and before the first task of equal or lower priority reached
from its original position, reproducing the stable descending sort
`tasks.sort((a, b) => priority[b.priority] - priority[a.priority])`. -/
def insertByPriority (t : SwarmTask) : List SwarmTask → List SwarmTask
  | [] => [t]
  | u :: us =>
    if priorityNum t.priority < priorityNum u.priority then
      u :: insertByPriority t us
    else
      t :: u :: us

/-- Stable sort by descending priority (source lines 213-216). -/
def sortByPriority (tasks : List SwarmTask) : List SwarmTask :=
  tasks.foldr insertByPriority []

/-- State of the admission loop of `executeSwarmTasks` (source lines
206-245): `queue` is the not-yet-admitted suffix of the sorted task
list, `active` holds the task ids tagged onto the promises currently in
the `activeTasks` array, `started` the ids of every task whose
`executeAgentTask` promise has been created, and `completed` the ids of
the started tasks whose promise has already settled. -/
structure ExecState where
  queue : List SwarmTask
  active : List String
  started : List String
  completed : List String
deriving DecidableEq, Repr

/-- Small-step semantics of `executeSwarmTasks` for concurrency ceiling
`C = config.maxConcurrentAgents`:

* `complete`: some in-flight promise settles (all `executeAgentTask`
  promises fulfil, since its `catch` returns a result object).
* `admitFree`: one iteration of the `for` loop when
  `activeTasks.length < C` — the task's promise is created and pushed.
* `admitFull`: one iteration when `activeTasks.length >= C`.  The loop
  first `await`s `Promise.race(activeTasks)`, which resolves as soon as
  (and only when) some promise in the array has settled — hence the
  `hrace` premise.  The race's value is a task-result object with a
  `taskId` field but no `id` field, so
  `activeTasks.findIndex(t => t.id === completedTask.id)` compares each
  promise's string tag against `undefined` and returns `-1`, and
  `activeTasks.splice(-1, 1)` removes the last element of the array —
  `List.dropLast` — before the new promise is pushed. -/
inductive ExecStep (C : Nat) : ExecState → ExecState → Prop where
  | complete (s : ExecState) (tid : String)
      (hs : tid ∈ s.started) (hn : tid ∉ s.completed) :
      ExecStep C s ⟨s.queue, s.active, s.started, tid :: s.completed⟩
  | admitFree (s : ExecState) (t : SwarmTask) (rest : List SwarmTask)
      (hq : s.queue = t :: rest) (hlen : s.active.length < C) :
      ExecStep C s ⟨rest, s.active ++ [t.id], t.id :: s.started, s.completed⟩
  | admitFull (s : ExecState) (t : SwarmTask) (rest : List SwarmTask)
      (hq : s.queue = t :: rest) (hlen : C ≤ s.active.length)
      (hrace : ∃ x ∈ s.active, x ∈ s.completed) :
      ExecStep C s
        ⟨rest, s.active.dropLast ++ [t.id], t.id :: s.started, s.completed⟩

/-- Initial loop state: the sorted task list queued, nothing started. -/
def initExecState (tasks : List SwarmTask) : ExecState :=
  { queue := sortByPriority tasks, active := [], started := [], completed := [] }

/-- Reachability under the admission-loop semantics. -/
def ExecReachable (C : Nat) (tasks : List SwarmTask) (s : ExecState) : Prop :=
  Relation.ReflTransGen (ExecStep C) (initExecState tasks) s

/-- Tasks whose promise has been created but has not settled. -/
def inFlight (s : ExecState) : List String :=
  s.started.filter (fun t => !(s.completed.contains t))

/-- Once the queue is drained, `executeSwarmTasks` awaits
`Promise.allSettled(activeTasks)` over the *final* contents of the
array and keys the returned map by each fulfilled value's `taskId`
(source lines 233-242).  Every promise fulfils, so the key set of the
returned map is exactly the ids tagged on the final array — promises
spliced out earlier are never awaited and their results are dropped. -/
def finalResultKeys (s : ExecState) : List String := s.active

/-- Outcome of the single coordination chat call in
`coordinateResults`: the promise resolves with a
`{success, data, error}` object or rejects with an error. -/
inductive SynthOutcome where
  | resolves (success : Bool) (content : String) (reasoning : String)
  | throws (msg : String)
deriving DecidableEq, Repr

/-- The object `coordinateResults` returns (source lines 427-487); the
three return sites populate different fields, so absent fields are
`none`. -/
structure CoordinatedResult where
  summary : String
  reasoning : Option String
  recommendations : Option (List String)
  agentContributions : Option Nat
  analysisTypes : Option (List String)
  confidence : String
  note : Option String
deriving DecidableEq, Repr

/-- JavaScript `String.prototype.toUpperCase` restricted to the ASCII
strings the orchestrator builds. -/
def jsToUpperCase (s : String) : String :=
  String.mk (s.data.map Char.toUpper)

/-- The `combinedAnalysis` string built at source line 436:
successful results are labelled by upper-cased type and joined with
blank lines. -/
def combinedAnalysis (successful : List TaskResult) : String :=
  String.intercalate "\n\n"
    (successful.map (fun r =>
      "**" ++ jsToUpperCase r.type ++ "**:\n" ++ r.result.getD ""))

/-- `coordinateResults` (source lines 424-487), parameterised by the
coordination-call oracle.  Returns the coordinated result together with
a flag recording whether the synthesis chat call was issued.  With zero
successful results the function returns the degraded object before any
call.  Otherwise the call is made; if it resolves successfully the
synthesized object is returned with the count-thresholded confidence,
and on a rejected promise (caught and logged) or an unsuccessful
response the fixed fallback object with `confidence: 'medium'` is
returned. -/
def coordinateResults (results : List TaskResult) (synth : SynthOutcome) :
    CoordinatedResult × Bool :=
  let successful := results.filter (fun r => r.success)
  if successful.length = 0 then
    ({ summary := "Swarm analysis failed - no agents completed successfully"
       reasoning := none
       recommendations := some []
       agentContributions := none
       analysisTypes := none
       confidence := "low"
       note := none }, false)
  else
    match synth with
    | .resolves true content reasoning =>
      ({ summary := content
         reasoning := some reasoning
         recommendations := none
         agentContributions := some successful.length
         analysisTypes := some (successful.map (fun r => r.type))
         confidence :=
           if 4 ≤ successful.length then "high"
           else if 2 ≤ successful.length then "medium" else "low"
         note := none }, true)
    | _ =>
      ({ summary := "Multiple specialized analyses completed. Individual agent results available."
         reasoning := none
         recommendations := none
         agentContributions := some successful.length
         analysisTypes := some (successful.map (fun r => r.type))
         confidence := "medium"
         note := some "Coordination synthesis failed, but individual analyses succeeded" }, true)

/-! Concrete inputs used to instantiate the theorems below. -/

/-- A demo task bound to a registered agent. -/
def mkDemoTask (tid aid ty pr : String) : SwarmTask :=
  { id := tid, agentId := aid, type := ty, repository := "octo/repo",
    priority := pr, description := "demo task" }

def demoTask : SwarmTask :=
  mkDemoTask "t0" "architect" "architecture-analysis" "high"

def taskA1 : SwarmTask := mkDemoTask "a1" "architect" "architecture-analysis" "high"
def taskA2 : SwarmTask := mkDemoTask "a2" "security" "security-analysis" "high"
def taskA3 : SwarmTask := mkDemoTask "a3" "performance" "performance-analysis" "high"

/-- Three equal-priority tasks, run with concurrency ceiling 2. -/
def demoTasksA : List SwarmTask := [taskA1, taskA2, taskA3]

def stA1 : ExecState := ⟨[taskA2, taskA3], ["a1"], ["a1"], []⟩
def stA2 : ExecState := ⟨[taskA3], ["a1", "a2"], ["a2", "a1"], []⟩
def stA3 : ExecState := ⟨[taskA3], ["a1", "a2"], ["a2", "a1"], ["a1"]⟩

/-- Loop-exit state of the run of `demoTasksA` under ceiling 2 in which
task a1 settles before a3 is admitted: admitting a3 splices out the
still-pending a2 promise. -/
def cexC1State : ExecState := ⟨[], ["a1", "a3"], ["a3", "a2", "a1"], ["a1"]⟩

def taskB1 : SwarmTask := mkDemoTask "b1" "architect" "architecture-analysis" "high"
def taskB2 : SwarmTask := mkDemoTask "b2" "security" "security-analysis" "high"
def taskB3 : SwarmTask := mkDemoTask "b3" "performance" "performance-analysis" "high"
def taskB4 : SwarmTask := mkDemoTask "b4" "quality" "quality-analysis" "high"

/-- Four equal-priority tasks, run with concurrency ceiling 2. -/
def demoTasksB : List SwarmTask := [taskB1, taskB2, taskB3, taskB4]

def stB1 : ExecState := ⟨[taskB2, taskB3, taskB4], ["b1"], ["b1"], []⟩
def stB2 : ExecState := ⟨[taskB3, taskB4], ["b1", "b2"], ["b2", "b1"], []⟩
def stB3 : ExecState := ⟨[taskB3, taskB4], ["b1", "b2"], ["b2", "b1"], ["b1"]⟩
def stB4 : ExecState := ⟨[taskB4], ["b1", "b3"], ["b3", "b2", "b1"], ["b1"]⟩

/-- State of the run of `demoTasksB` under ceiling 2 after b4 is
admitted: the settled b1 promise was never removed from the array, so
both over-capacity races resolve instantly against it, and b2, b3 and
b4 are all in flight at once. -/
def cexC3State : ExecState := ⟨[], ["b1", "b4"], ["b4", "b3", "b2", "b1"], ["b1"]⟩

/-- A task result as consumed by `coordinateResults`. -/
def mkSampleResult (ty : String) (ok : Bool) : TaskResult :=
  { taskId := ty, agentId := ty, type := ty, success := ok,
    result := if ok then some "out" else none,
    reasoning := none,
    error := if ok then none else some "backend error",
    executionTime := 1, timestamp := 1 }

/-- Six results of which five succeeded and one failed. -/
def demo6Results : List TaskResult :=
  [mkSampleResult "architecture-analysis" true,
   mkSampleResult "security-analysis" true,
   mkSampleResult "performance-analysis" true,
   mkSampleResult "quality-analysis" true,
   mkSampleResult "testing-analysis" true,
   mkSampleResult "documentation-analysis" false]

/-- Two results, both failed. -/
def demoFailedResults : List TaskResult :=
  [mkSampleResult "architecture-analysis" false,
   mkSampleResult "security-analysis" false]

/-- Two results, exactly one success. -/
def demoOneSuccess : List TaskResult :=
  [mkSampleResult "architecture-analysis" true,
   mkSampleResult "security-analysis" false]

/-- Outcome of running one task against the architect agent whose chat
call rejects after 5 ms (timeout 120000 ms, the default). -/
def c7Out : TaskResult × Agent × AgentEfficiency :=
  executeAgentTask 120000 architectAgent initialEfficiency demoTask 0
    (ChatBehavior.rejects "backend down" 5)

/-- Outcome of running one task against the security agent whose chat
call would resolve successfully only after 500 ms, against a 100 ms
timeout. -/
def c8Out : TaskResult × Agent × AgentEfficiency :=
  executeAgentTask 100 securityAgent initialEfficiency
    (mkDemoTask "t8" "security" "security-analysis" "high") 0
    (ChatBehavior.resolves true "late answer" "late reasoning" "" 500)

/-- Agent state after two successful executions taking 100 ms and 0 ms,
starting from the freshly initialised architect agent. -/
def blendDemoAgent : Agent :=
  (executeAgentTask 1000
    ((executeAgentTask 1000 architectAgent initialEfficiency demoTask 0
        (ChatBehavior.resolves true "a" "r" "" 100)).2.1)
    initialEfficiency demoTask 0
    (ChatBehavior.resolves true "b" "r" "" 0)).2.1

/-! Theorems. -/

/-- Helper: characterisation of `jsRoundDiv2` as round-half-up of
`s / 2`: twice the result is `s` rounded up to the nearest even
number. -/
theorem jsRoundDiv2_eq_round (s : Nat) : 2 * jsRoundDiv2 s = s + s % 2 := by
  unfold jsRoundDiv2
  omega

/-- C1: the claim fails on the code. With three submitted tasks and
ceiling 2, if the first task settles before the third is admitted, the
admission loop reaches its exit (empty queue) in a state whose
`activeTasks` array no longer holds the promise of task a2: the
`findIndex` lookup against the nonexistent `id` field of the raced
value returned `-1`, so `splice(-1, 1)` removed the pending a2 promise
instead of the settled a1 one. `Promise.allSettled` then runs over the
final array only, so the returned mapping has no entry keyed by a2 and
the executor returns although a2 has not terminated (a2 is absent from
`completed`). -/
theorem C1_executor_drops_result :
    ExecReachable 2 demoTasksA cexC1State ∧
    cexC1State.queue = [] ∧
    "a2" ∈ demoTasksA.map SwarmTask.id ∧
    "a2" ∉ finalResultKeys cexC1State ∧
    "a2" ∉ cexC1State.completed := by
  refine ⟨?_, rfl, by decide, by decide, by decide⟩
  have h1 : ExecStep 2 (initExecState demoTasksA) stA1 :=
    ExecStep.admitFree (initExecState demoTasksA) taskA1 [taskA2, taskA3]
      rfl (by decide)
  have h2 : ExecStep 2 stA1 stA2 :=
    ExecStep.admitFree stA1 taskA2 [taskA3] rfl (by decide)
  have h3 : ExecStep 2 stA2 stA3 :=
    ExecStep.complete stA2 "a1" (by decide) (by decide)
  have h4 : ExecStep 2 stA3 cexC1State :=
    ExecStep.admitFull stA3 taskA3 [] rfl (by decide) (by decide)
  exact Relation.ReflTransGen.head h1 (Relation.ReflTransGen.head h2
    (Relation.ReflTransGen.head h3 (Relation.ReflTransGen.single h4)))

/-- C3: the claim fails on the code. With four submitted tasks and
ceiling 2, once one task has settled the settled promise is never
removed from `activeTasks` (the broken `findIndex`/`splice` pair
removes the most recently pushed promise instead), so every later
`Promise.race` resolves immediately against the already-settled entry
and a new task is admitted without any in-flight task terminating:
after admitting b4 there are three tasks in flight, exceeding the
ceiling of 2. -/
theorem C3_concurrency_ceiling_exceeded :
    ExecReachable 2 demoTasksB cexC3State ∧
    inFlight cexC3State = ["b4", "b3", "b2"] ∧
    2 < (inFlight cexC3State).length := by
  refine ⟨?_, by decide, by decide⟩
  have h1 : ExecStep 2 (initExecState demoTasksB) stB1 :=
    ExecStep.admitFree (initExecState demoTasksB) taskB1 [taskB2, taskB3, taskB4]
      rfl (by decide)
  have h2 : ExecStep 2 stB1 stB2 :=
    ExecStep.admitFree stB1 taskB2 [taskB3, taskB4] rfl (by decide)
  have h3 : ExecStep 2 stB2 stB3 :=
    ExecStep.complete stB2 "b1" (by decide) (by decide)
  have h4 : ExecStep 2 stB3 stB4 :=
    ExecStep.admitFull stB3 taskB3 [taskB4] rfl (by decide) (by decide)
  have h5 : ExecStep 2 stB4 cexC3State :=
    ExecStep.admitFull stB4 taskB4 [] rfl (by decide) (by decide)
  exact Relation.ReflTransGen.head h1 (Relation.ReflTransGen.head h2
    (Relation.ReflTransGen.head h3 (Relation.ReflTransGen.head h4
      (Relation.ReflTransGen.single h5))))

/-- C2 counterexample: six task results of which five succeeded, but
the synthesis call rejects — `coordinateResults` then returns the
fallback object with confidence `"medium"`, not `"high"` as the claim
requires for at least 4 successes. -/
theorem C2_counterexample :
    (demo6Results.filter (fun r => r.success)).length = 5 ∧
    ((coordinateResults demo6Results (SynthOutcome.throws "network error")).1).confidence
      = "medium" ∧
    ((coordinateResults demo6Results (SynthOutcome.throws "network error")).1).confidence
      ≠ "high" := by
  refine ⟨by decide, by decide, by decide⟩

/-- C2 amended: when the synthesis call resolves successfully, the
confidence is derived from the success count alone with the fixed
thresholds (high for at least 4, medium for 2 or 3, low otherwise),
independent of which specific tasks succeeded; in particular six
results with five successes yield `"high"`.  (When the synthesis call
fails, the fallback confidence is `"medium"` regardless of the count.) -/
theorem C2_confidence_thresholds :
    (∀ (results : List TaskResult) (content reasoning : String),
      ((coordinateResults results (SynthOutcome.resolves true content reasoning)).1).confidence
        = (if 4 ≤ (results.filter (fun r => r.success)).length then "high"
           else if 2 ≤ (results.filter (fun r => r.success)).length then "medium"
           else "low")) ∧
    ((coordinateResults demo6Results (SynthOutcome.resolves true "synthesis" "why")).1).confidence
      = "high" := by
  refine ⟨?_, by decide⟩
  intro results content reasoning
  by_cases h : (results.filter (fun r => r.success)).length = 0
  · simp [coordinateResults, h]
  · simp [coordinateResults, h]

/-- C4: a task whose chat call settles only after the timeout `T`
yields exactly the catch-path result with `success = false` and the
fixed error message `"Task timeout"`; the right-hand side does not
mention the chat behaviour at all, so the result is independent of the
eventual value of the abandoned inference call.  The final conjunct
shows that an inference call that completes unsuccessfully within the
timeout surfaces the backend error message instead, so the timeout
marker is a distinct error kind. -/
theorem C4_timeout_distinct_result (T : Nat) (agent : Agent)
    (eff : AgentEfficiency) (task : SwarmTask) (startTime : Nat)
    (chat : ChatBehavior) (h : T < chatDuration chat) :
    (executeAgentTask T agent eff task startTime chat).1 =
      catchTaskResult task "Task timeout" T startTime ∧
    ((executeAgentTask T agent eff task startTime chat).1).success = false ∧
    ((executeAgentTask T agent eff task startTime chat).1).error =
      some "Task timeout" ∧
    (∀ (content reasoning errMsg : String) (d : Nat), d < T →
      ((executeAgentTask T agent eff task startTime
          (ChatBehavior.resolves false content reasoning errMsg d)).1).error =
        some errMsg) := by
  have key : (executeAgentTask T agent eff task startTime chat).1 =
      catchTaskResult task "Task timeout" T startTime := by
    cases chat with
    | resolves ok c r m d =>
      simp only [chatDuration] at h
      simp [executeAgentTask, Nat.not_lt.mpr (Nat.le_of_lt h)]
    | rejects m d =>
      simp only [chatDuration] at h
      simp [executeAgentTask, Nat.not_lt.mpr (Nat.le_of_lt h)]
  refine ⟨key, by rw [key]; rfl, by rw [key]; rfl, ?_⟩
  intro c r m d hd
  simp [executeAgentTask, hd]

/-- C4 witness: with timeout 100 ms and a chat call that rejects only
after 500 ms, the timer fires first and the task result is the timeout
record. -/
theorem C4_timeout_distinct_result_witness :
    100 < chatDuration (ChatBehavior.rejects "backend hang" 500) ∧
    (executeAgentTask 100 architectAgent initialEfficiency demoTask 0
        (ChatBehavior.rejects "backend hang" 500)).1 =
      catchTaskResult demoTask "Task timeout" 100 0 :=
  ⟨by decide,
   (C4_timeout_distinct_result 100 architectAgent initialEfficiency demoTask 0
      (ChatBehavior.rejects "backend hang" 500) (by decide)).1⟩

/-- C5: with zero successful task results, `coordinateResults` returns
the degraded object with confidence `"low"` (empty recommendations and
the fixed failure summary) and the synthesis-call flag is `false`: the
early return fires before the coordination chat call is built. -/
theorem C5_no_success_skips_synthesis (results : List TaskResult)
    (synth : SynthOutcome)
    (h : results.filter (fun r => r.success) = []) :
    coordinateResults results synth =
      ({ summary := "Swarm analysis failed - no agents completed successfully",
         reasoning := none
         recommendations := some []
         agentContributions := none
         analysisTypes := none
         confidence := "low"
         note := none }, false) := by
  simp [coordinateResults, h]

/-- C5 witness: two failed results, a synthesis oracle that would have
succeeded — the degraded low-confidence object is returned and no
synthesis call is made. -/
theorem C5_no_success_skips_synthesis_witness :
    demoFailedResults.filter (fun r => r.success) = [] ∧
    (coordinateResults demoFailedResults (SynthOutcome.resolves true "s" "r")).2
      = false ∧
    ((coordinateResults demoFailedResults (SynthOutcome.resolves true "s" "r")).1).confidence
      = "low" := by
  refine ⟨by decide, ?_, ?_⟩ <;>
    rw [C5_no_success_skips_synthesis demoFailedResults
      (SynthOutcome.resolves true "s" "r") (by decide)]

/-- C6 counterexample: with one successful result and a rejecting
synthesis call, the fallback summary is the fixed sentence
`"Multiple specialized analyses completed. Individual agent results available."`
and not the raw concatenation of the successful outputs the claim
requires (the `combinedAnalysis` string built at source line 436). -/
theorem C6_counterexample :
    ((coordinateResults demoOneSuccess (SynthOutcome.throws "boom")).1).confidence
      = "medium" ∧
    ((coordinateResults demoOneSuccess (SynthOutcome.throws "boom")).1).summary
      = "Multiple specialized analyses completed. Individual agent results available." ∧
    ((coordinateResults demoOneSuccess (SynthOutcome.throws "boom")).1).summary
      ≠ combinedAnalysis (demoOneSuccess.filter (fun r => r.success)) := by
  refine ⟨by decide, by decide, by decide⟩

/-- C6 amended: with at least one success, a failed synthesis call —
whether the promise rejects or the response reports failure — always
produces the fixed fallback object: confidence `"medium"`, the note
that synthesis failed, the fixed summary sentence (not the raw
concatenation), and the successful analysis types; the synthesis
failure never aborts the run (both failure modes return this object
rather than propagating). -/
theorem C6_synthesis_failure_fallback (results : List TaskResult)
    (msg content reasoning : String)
    (h : results.filter (fun r => r.success) ≠ []) :
    coordinateResults results (SynthOutcome.throws msg) =
      ({ summary := "Multiple specialized analyses completed. Individual agent results available.",
         reasoning := none
         recommendations := none
         agentContributions := some (results.filter (fun r => r.success)).length
         analysisTypes := some ((results.filter (fun r => r.success)).map (fun r => r.type))
         confidence := "medium"
         note := some "Coordination synthesis failed, but individual analyses succeeded" },
       true) ∧
    coordinateResults results (SynthOutcome.resolves false content reasoning) =
      ({ summary := "Multiple specialized analyses completed. Individual agent results available.",
         reasoning := none
         recommendations := none
         agentContributions := some (results.filter (fun r => r.success)).length
         analysisTypes := some ((results.filter (fun r => r.success)).map (fun r => r.type))
         confidence := "medium"
         note := some "Coordination synthesis failed, but individual analyses succeeded" },
       true) := by
  have h0 : ¬ (results.filter (fun r => r.success)).length = 0 := by
    simpa [List.length_eq_zero] using h
  constructor <;> simp [coordinateResults, h0]

/-- C6 witness: one success out of two results, rejecting synthesis
call — the fallback fires with confidence `"medium"` and the failure
note. -/
theorem C6_synthesis_failure_fallback_witness :
    demoOneSuccess.filter (fun r => r.success) ≠ [] ∧
    ((coordinateResults demoOneSuccess (SynthOutcome.throws "down")).1).confidence
      = "medium" ∧
    ((coordinateResults demoOneSuccess (SynthOutcome.throws "down")).1).note
      = some "Coordination synthesis failed, but individual analyses succeeded" := by
  refine ⟨by decide, ?_, ?_⟩ <;>
    rw [(C6_synthesis_failure_fallback demoOneSuccess "down" "c" "r" (by decide)).1]

/-- C7 counterexample: after one failed task (the chat call rejects
after 5 ms), the agent has 0 completed tasks and 1 failed task, so the
claimed formula yields `0 / (0 + 1) * 100 = 0`; but the stored
`successRate` is still its initial 100 — it is never recomputed. -/
theorem C7_counterexample :
    c7Out.1.success = false ∧
    (c7Out.2.1).tasksCompleted = 0 ∧
    (c7Out.2.1).successRate = 100 ∧
    (c7Out.2.1).tasksCompleted / ((c7Out.2.1).tasksCompleted + 1) * 100 = 0 ∧
    (c7Out.2.1).successRate ≠
      (c7Out.2.1).tasksCompleted / ((c7Out.2.1).tasksCompleted + 1) * 100 := by
  refine ⟨by decide, by decide, by decide, by decide, by decide⟩

/-- C7 amended: `successRate` is initialised to 100 for every agent in
the registry and is never recomputed: `executeAgentTask` leaves it
unchanged on every outcome.  In particular an agent that has run no
tasks reports 100, as the claim states, but the value stays 100
regardless of subsequent failures. -/
theorem C7_success_rate_constant :
    (initializeAgents.all (fun p => p.2.successRate == 100)) = true ∧
    ∀ (T : Nat) (a : Agent) (e : AgentEfficiency) (t : SwarmTask)
      (st : Nat) (chat : ChatBehavior),
      ((executeAgentTask T a e t st chat).2.1).successRate = a.successRate := by
  refine ⟨by decide, ?_⟩
  intro T a e t st chat
  cases chat with
  | resolves ok c r m d => by_cases hd : d < T <;> simp [executeAgentTask, hd]
  | rejects m d => by_cases hd : d < T <;> simp [executeAgentTask, hd]

/-- C8 counterexample: a task that times out (chat would resolve after
500 ms, timeout 100 ms) terminates with a failed result, yet the
agent's metrics do not reflect the outcome: `tasksCompleted` and
`averageResponseTime` are unchanged (the blend with the 100 ms
execution time would have produced 50), and no per-agent failed
counter exists to be incremented. -/
theorem C8_counterexample :
    c8Out.1.success = false ∧
    c8Out.1.error = some "Task timeout" ∧
    (c8Out.2.1).tasksCompleted = securityAgent.tasksCompleted ∧
    (c8Out.2.1).averageResponseTime = securityAgent.averageResponseTime ∧
    jsRoundDiv2 (securityAgent.averageResponseTime + c8Out.1.executionTime) = 50 ∧
    (c8Out.2.1).averageResponseTime ≠ 50 := by
  refine ⟨by decide, by decide, by decide, by decide, by decide, by decide⟩

/-- C8 amended: on task termination the metrics update depends on how
the race ended, not on task success. If the chat promise resolves
within the timeout — successfully or not — the agent's
`tasksCompleted` is incremented and `averageResponseTime` re-blended;
if it rejects or times out, the agent's counters are untouched and
only the swarm-efficiency `tasksAssigned` counter is incremented.
There is no per-agent failed count. -/
theorem C8_metrics_by_race_outcome (T : Nat) (a : Agent)
    (e : AgentEfficiency) (t : SwarmTask) (st : Nat) (ok : Bool)
    (c r m msg : String) (d : Nat) :
    (((executeAgentTask T a e t st (ChatBehavior.resolves ok c r m d)).2.1).tasksCompleted
      = if d < T then a.tasksCompleted + 1 else a.tasksCompleted) ∧
    (((executeAgentTask T a e t st (ChatBehavior.resolves ok c r m d)).2.1).averageResponseTime
      = if d < T then jsRoundDiv2 (a.averageResponseTime + d)
        else a.averageResponseTime) ∧
    (((executeAgentTask T a e t st (ChatBehavior.resolves ok c r m d)).2.2).tasksAssigned
      = if d < T then e.tasksAssigned else e.tasksAssigned + 1) ∧
    (((executeAgentTask T a e t st (ChatBehavior.rejects msg d)).2.1).tasksCompleted
      = a.tasksCompleted) ∧
    (((executeAgentTask T a e t st (ChatBehavior.rejects msg d)).2.1).averageResponseTime
      = a.averageResponseTime) ∧
    (((executeAgentTask T a e t st (ChatBehavior.rejects msg d)).2.2).tasksAssigned
      = e.tasksAssigned + 1) := by
  by_cases hd : d < T <;> simp [executeAgentTask, hd]

/-- Helper for claim C9: from an empty task list no admission-loop step
is enabled, so the initial state is the only reachable one. -/
theorem execReachable_nil (C : Nat) (s : ExecState)
    (h : Relation.ReflTransGen (ExecStep C) (initExecState []) s) :
    s = initExecState [] := by
  induction h with
  | refl => rfl
  | tail hsteps step ih =>
    subst ih
    cases step with
    | complete tid hs hn =>
      simp [initExecState, sortByPriority] at hs
    | admitFree t rest hq hlen =>
      simp [initExecState, sortByPriority] at hq
    | admitFull t rest hq hlen hrace =>
      simp [initExecState, sortByPriority] at hq

/-- C9: submitting an empty requested-kinds list builds zero tasks
(every branch of `createSwarmTasks` is skipped), the admission loop
never moves — so the executor returns the empty result mapping — and
coordination returns the degraded low-confidence object without making
a synthesis call. Every function involved is total, so the run
completes without error. -/
theorem C9_empty_kinds_degraded_run (now : Nat) (repository : String)
    (synth : SynthOutcome) (s : ExecState)
    (h : ExecReachable 6 (createSwarmTasks now repository []) s) :
    createSwarmTasks now repository [] = [] ∧
    finalResultKeys s = [] ∧
    s.started = [] ∧
    coordinateResults [] synth =
      ({ summary := "Swarm analysis failed - no agents completed successfully",
         reasoning := none
         recommendations := some []
         agentContributions := none
         analysisTypes := none
         confidence := "low"
         note := none }, false) := by
  have hs : s = initExecState [] := execReachable_nil 6 s h
  refine ⟨rfl, by rw [hs]; rfl, by rw [hs]; rfl, rfl⟩

/-- C9 witness: the initial state of the empty run is reachable, and
the degraded result carries confidence low with no synthesis call. -/
theorem C9_empty_kinds_degraded_run_witness :
    ExecReachable 6 (createSwarmTasks 0 "octo/repo" []) (initExecState []) ∧
    ((coordinateResults [] (SynthOutcome.throws "x")).1).confidence = "low" ∧
    (coordinateResults [] (SynthOutcome.throws "x")).2 = false := by
  have h := C9_empty_kinds_degraded_run 0 "octo/repo" (SynthOutcome.throws "x")
    (initExecState []) Relation.ReflTransGen.refl
  exact ⟨Relation.ReflTransGen.refl, by rw [h.2.2.2], by rw [h.2.2.2]⟩

/-- C10: on a successful execution the stored average becomes
`Math.round((previousAverage + executionTime) / 2)` (the `jsRoundDiv2`
blend), every agent starts at average 0, and the running blend is not
the arithmetic mean of the observations: after successful executions
taking 100 ms then 0 ms the stored value is 25 while the mean of the
two observations is 50. -/
theorem C10_average_is_running_blend :
    (∀ (T : Nat) (a : Agent) (e : AgentEfficiency) (t : SwarmTask)
       (st : Nat) (c r m : String) (d : Nat),
       ((executeAgentTask T a e t st (ChatBehavior.resolves true c r m d)).2.1).averageResponseTime
         = if d < T then jsRoundDiv2 (a.averageResponseTime + d)
           else a.averageResponseTime) ∧
    (initializeAgents.all (fun p => p.2.averageResponseTime == 0)) = true ∧
    blendDemoAgent.averageResponseTime = 25 ∧
    (100 + 0) / 2 = 50 ∧
    blendDemoAgent.averageResponseTime ≠ (100 + 0) / 2 := by
  refine ⟨?_, by decide, by decide, by decide, by decide⟩
  intro T a e t st c r m d
  by_cases hd : d < T <;> simp [executeAgentTask, hd]
